import Mathlib

/-!
Verification of the data-access and view-materialization layer of the
CDX-ACM-VF portfolio platform (src/utils/data.py and
src/blueprints/portfolio/routes.py), as a shallow embedding in Lean 4.

JSON-ish values are modelled by an inductive `Value`; Python dicts built by
the materializer are association lists in their construction order; Python
`None` is `Value.null` or `Option.none` at typed positions; Python falsy
`or` defaulting is modelled by the `orStr` / `orList` / `orDict` helpers.
-/

namespace CDX

/-- Shallow model of the JSON-ish values the data layer passes around:
strings, integers, booleans, null, arrays and objects (objects as
association lists in insertion order, the order Python builds them in). -/
inductive Value where
  | str (s : String)
  | int (n : Int)
  | bool (b : Bool)
  | null
  | list (xs : List Value)
  | dict (kvs : List (String × Value))

/-- Association-list lookup: `lookup kvs k` is the value of the first
binding of key `k`, mirroring Python dict access on the dicts the code
builds (whose keys are distinct). -/
def lookup (kvs : List (String × Value)) (k : String) : Option Value :=
  match kvs with
  | [] => none
  | (k', v) :: rest => if k' = k then some v else lookup rest k

/-- Key-membership test on a materialized object, for claims about which
keys are present versus absent. -/
def hasKey (kvs : List (String × Value)) (k : String) : Bool :=
  (lookup kvs k).isSome

/-- Python falsy-`or` on an optional string: `x or d` yields `d` when `x`
is `None` or the empty string. -/
def orStr (x : Option String) (d : String) : String :=
  match x with
  | none => d
  | some s => if s = "" then d else s

/-- Python falsy-`or` on an optional JSON array: `x or d` yields `d` when
`x` is `None` or the empty list. -/
def orList (x : Option (List Value)) (d : List Value) : List Value :=
  match x with
  | none => d
  | some xs => if xs.isEmpty then d else xs

/-- Python falsy-`or` on an optional JSON object: `x or d` yields `d` when
`x` is `None` or the empty dict. -/
def orDict (x : Option (List (String × Value))) (d : List (String × Value)) :
    List (String × Value) :=
  match x with
  | none => d
  | some kvs => if kvs.isEmpty then d else kvs

/-- Naive second-resolution timestamp, the content of a Python `datetime`
column as the materializer consumes it. -/
structure DateTime where
  year : Nat
  month : Nat
  day : Nat
  hour : Nat
  minute : Nat
  second : Nat
  deriving DecidableEq, Repr

/-- Decimal digit character of `n % 10`. -/
def digitChar (n : Nat) : Char := Char.ofNat (48 + n % 10)

/-- Two-digit zero-padded decimal rendering, the effect of `%m`, `%d`,
`%H`, `%M`, `%S` in `strftime` on in-range field values. -/
def pad2 (n : Nat) : String :=
  String.mk [digitChar (n / 10), digitChar n]

/-- Four-digit zero-padded decimal rendering, the effect of `%Y` in
`strftime` on the 1..9999 year range Python datetimes admit. -/
def pad4 (n : Nat) : String :=
  String.mk [digitChar (n / 1000), digitChar (n / 100), digitChar (n / 10), digitChar n]

/-- Rendering of `strftime` with pattern `%Y-%m-%d %H:%M:%S`. -/
def fmtDateTime (d : DateTime) : String :=
  pad4 d.year ++ "-" ++ pad2 d.month ++ "-" ++ pad2 d.day ++ " " ++
    pad2 d.hour ++ ":" ++ pad2 d.minute ++ ":" ++ pad2 d.second

/-- Rendering of `strftime` with pattern `%Y-%m-%d`. -/
def fmtDate (d : DateTime) : String :=
  pad4 d.year ++ "-" ++ pad2 d.month ++ "-" ++ pad2 d.day

/-- Rendering of Python `datetime.isoformat()` at second resolution:
the date and time separated by the character T. -/
def isoformat (d : DateTime) : String :=
  pad4 d.year ++ "-" ++ pad2 d.month ++ "-" ++ pad2 d.day ++ "T" ++
    pad2 d.hour ++ ":" ++ pad2 d.minute ++ ":" ++ pad2 d.second

/-- Value of `x.strftime(fmt) if x else None` for a nullable datetime
column rendered with a given formatter. -/
def optFmt (f : DateTime → String) (x : Option DateTime) : Value :=
  match x with
  | none => Value.null
  | some d => Value.str (f d)

/-- Calendar-date equality, the effect of comparing `.date()` values. -/
def sameDate (a b : DateTime) : Bool :=
  a.year = b.year ∧ a.month = b.month ∧ a.day = b.day

/-- Nullable string column as a JSON value: `None` renders as null. -/
def optStrV (x : Option String) : Value :=
  match x with
  | none => Value.null
  | some s => Value.str s

/-- Nullable integer column as a JSON value: `None` renders as null. -/
def optIntV (x : Option Int) : Value :=
  match x with
  | none => Value.null
  | some n => Value.int n

/-- The Workspace record as src/utils/data.py consumes it. -/
structure Workspace where
  id : Nat
  slug : String
  name : String
  title : Option String
  description : Option String
  about : Option String
  photo : Option String
  contact : Option (List (String × Value))
  social : Option (List (String × Value))
  settings : Option (List (String × Value))
  plan : String

/-- The User record as src/utils/data.py consumes it. -/
structure User where
  id : Nat
  username : String
  email : String
  password_hash : String
  role : String
  is_demo : Bool
  is_verified : Bool
  must_change_password : Bool
  created_at : Option DateTime

/-- The Skill record: a name and a numeric level scoped to a workspace. -/
structure Skill where
  workspace_id : Nat
  name : String
  level : Int

/-- The Project record as src/utils/data.py consumes it. -/
structure Project where
  id : Nat
  workspace_id : Nat
  title : String
  description : Option String
  short_description : Option String
  content : Option String
  image : Option String
  demo_url : Option String
  github_url : Option String
  technologies : Option (List Value)
  gallery : Option (List Value)
  skill_related : Option (List Value)
  project_type : Option String
  badge : Option String
  created_at : Option DateTime
  request_budget_min : Option Int
  request_budget_max : Option Int
  request_deadline : Option DateTime
  request_status : Option String

/-- The Client record as src/utils/data.py consumes it. -/
structure Client where
  id : Nat
  workspace_id : Nat
  name : String
  email : Option String
  phone : Option String
  company : Option String
  project_title : Option String
  project_description : Option String
  status : Option String
  price : Option String
  deadline : Option DateTime
  start_date : Option DateTime
  notes : Option String
  created_at : Option DateTime
  status_updated_at : Option DateTime

/-- The Message record as the data layer and the contact route consume it. -/
structure MessageRow where
  id : Nat
  workspace_id : Nat
  name : String
  email : String
  message : String
  is_read : Bool
  category : Option String
  sender_id : Option Int
  receiver_id : Option Int
  sender_role : Option String
  request_type : Option String
  interest_area : Option String
  seriousness : Option String
  contact_pref : Option String
  company : Option String
  created_at : Option DateTime

/-- The Service record as src/utils/data.py consumes it. -/
structure Service where
  id : Nat
  workspace_id : Nat
  title : String
  description : Option String
  short_description : Option String
  category : Option String
  pricing_type : Option String
  price_min : Option Int
  price_max : Option Int
  currency : Option String
  deliverables : Option (List Value)
  duration : Option String
  skills_required : Option (List Value)
  image : Option String
  gallery : Option (List Value)
  is_active : Bool
  is_featured : Bool
  created_at : Option DateTime
  updated_at : Option DateTime

/-- An append-only visitor log row: ip and timestamp scoped to a workspace. -/
structure VisitorLog where
  workspace_id : Nat
  ip_address : String
  created_at : DateTime

/-- Per-workspace Telegram notification settings. -/
structure NotificationSettings where
  workspace_id : Nat
  telegram_bot_token : Option String
  telegram_chat_id : Option String
  telegram_configured_at : Option DateTime

/-- The relational store state: one list per table. -/
structure DB where
  workspaces : List Workspace
  users : List User
  skills : List Skill
  projects : List Project
  clients : List Client
  messages : List MessageRow
  services : List Service
  visitorLogs : List VisitorLog
  notifSettings : List NotificationSettings

/-- Rows of a one-to-many relationship attribute, in table order. -/
def skillsOf (db : DB) (wid : Nat) : List Skill :=
  db.skills.filter (fun s => s.workspace_id == wid)

/-- Projects belonging to a workspace, in table order. -/
def projectsOf (db : DB) (wid : Nat) : List Project :=
  db.projects.filter (fun p => p.workspace_id == wid)

/-- Clients belonging to a workspace, in table order. -/
def clientsOf (db : DB) (wid : Nat) : List Client :=
  db.clients.filter (fun c => c.workspace_id == wid)

/-- Messages belonging to a workspace, in table order. -/
def messagesOf (db : DB) (wid : Nat) : List MessageRow :=
  db.messages.filter (fun m => m.workspace_id == wid)

/-- Services belonging to a workspace, in table order. -/
def servicesOf (db : DB) (wid : Nat) : List Service :=
  db.services.filter (fun s => s.workspace_id == wid)

/-- Visitor log rows of a workspace, the result of the filter_by query. -/
def visitorLogsOf (db : DB) (wid : Nat) : List VisitorLog :=
  db.visitorLogs.filter (fun v => v.workspace_id == wid)

/-- First notification-settings row of a workspace (`.first()` on the query). -/
def notifSettingsOf (db : DB) (wid : Nat) : Option NotificationSettings :=
  db.notifSettings.find? (fun n => n.workspace_id == wid)

/-- Embedding of get_workspace_by_username: first workspace whose slug is
the username. -/
def get_workspace_by_username (db : DB) (username : String) : Option Workspace :=
  db.workspaces.find? (fun w => w.slug == username)

/-- Embedding of project_to_dict (src/utils/data.py lines 144-171): the base
mapping, extended with the four request fields exactly when the stored
project_type equals the string request. -/
def project_to_dict (p : Project) : List (String × Value) :=
  let result : List (String × Value) :=
    [("id", Value.int p.id),
     ("title", Value.str p.title),
     ("description", Value.str (orStr p.description "")),
     ("short_description", Value.str (orStr p.short_description "")),
     ("content", Value.str (orStr p.content "")),
     ("image", Value.str (orStr p.image "")),
     ("demo_url", Value.str (orStr p.demo_url "")),
     ("github_url", Value.str (orStr p.github_url "")),
     ("technologies", Value.list (orList p.technologies [])),
     ("gallery", Value.list (orList p.gallery [])),
     ("skill_related", Value.list (orList p.skill_related [])),
     ("project_type", Value.str (orStr p.project_type "portfolio")),
     ("badge", Value.str (orStr p.badge "")),
     ("created_at", optFmt fmtDateTime p.created_at)]
  if p.project_type = some "request" then
    result ++
      [("request_budget_min", optIntV p.request_budget_min),
       ("request_budget_max", optIntV p.request_budget_max),
       ("request_deadline", optFmt fmtDate p.request_deadline),
       ("request_status", Value.str (orStr p.request_status "open"))]
  else
    result

/-- Embedding of client_to_dict (src/utils/data.py lines 174-191). -/
def client_to_dict (c : Client) : List (String × Value) :=
  [("id", Value.int c.id),
   ("name", Value.str c.name),
   ("email", Value.str (orStr c.email "")),
   ("phone", Value.str (orStr c.phone "")),
   ("company", Value.str (orStr c.company "")),
   ("project_title", Value.str (orStr c.project_title "")),
   ("project_description", Value.str (orStr c.project_description "")),
   ("status", Value.str (orStr c.status "lead")),
   ("price", Value.str (orStr c.price "")),
   ("deadline", optFmt fmtDate c.deadline),
   ("start_date", optFmt fmtDate c.start_date),
   ("notes", Value.str (orStr c.notes "")),
   ("created_at", optFmt fmtDateTime c.created_at),
   ("status_updated_at", optFmt fmtDateTime c.status_updated_at)]

/-- Embedding of message_to_dict (src/utils/data.py lines 194-206). -/
def message_to_dict (m : MessageRow) : List (String × Value) :=
  [("id", Value.int m.id),
   ("name", Value.str m.name),
   ("email", Value.str m.email),
   ("message", Value.str m.message),
   ("read", Value.bool m.is_read),
   ("category", Value.str (orStr m.category "portfolio")),
   ("sender_id", optIntV m.sender_id),
   ("receiver_id", optIntV m.receiver_id),
   ("date", optFmt fmtDateTime m.created_at)]

/-- Embedding of service_to_dict (src/utils/data.py lines 209-230); the two
timestamps are rendered with isoformat, not strftime. -/
def service_to_dict (s : Service) : List (String × Value) :=
  [("id", Value.int s.id),
   ("title", Value.str s.title),
   ("description", Value.str (orStr s.description "")),
   ("short_description", Value.str (orStr s.short_description "")),
   ("category", Value.str (orStr s.category "")),
   ("pricing_type", Value.str (orStr s.pricing_type "custom")),
   ("price_min", optIntV s.price_min),
   ("price_max", optIntV s.price_max),
   ("currency", Value.str (orStr s.currency "USD")),
   ("deliverables", Value.list (orList s.deliverables [])),
   ("duration", Value.str (orStr s.duration "")),
   ("skills_required", Value.list (orList s.skills_required [])),
   ("image", Value.str (orStr s.image "")),
   ("gallery", Value.list (orList s.gallery [])),
   ("is_active", Value.bool s.is_active),
   ("is_featured", Value.bool s.is_featured),
   ("created_at", optFmt isoformat s.created_at),
   ("updated_at", optFmt isoformat s.updated_at)]

/-- Embedding of user_to_dict (src/utils/data.py lines 233-245). -/
def user_to_dict (u : User) : List (String × Value) :=
  [("id", Value.int u.id),
   ("username", Value.str u.username),
   ("email", Value.str u.email),
   ("password_hash", Value.str u.password_hash),
   ("role", Value.str u.role),
   ("is_demo", Value.bool u.is_demo),
   ("is_verified", Value.bool u.is_verified),
   ("must_change_password", Value.bool u.must_change_password),
   ("created_at", optFmt fmtDateTime u.created_at)]

/-- Embedding of get_default_portfolio_data (src/utils/data.py lines
248-267): the hard-coded default template. -/
def get_default_portfolio_data : List (String × Value) :=
  [("name", Value.str ""),
   ("title", Value.str "Web Developer & Designer"),
   ("description", Value.str "Welcome to my professional portfolio."),
   ("skills", Value.list []),
   ("projects", Value.list []),
   ("services", Value.list []),
   ("messages", Value.list []),
   ("clients", Value.list []),
   ("settings", Value.dict [("theme", Value.str "luxury-gold")]),
   ("visitors", Value.dict
     [("total", Value.int 0),
      ("today", Value.list []),
      ("unique_ips", Value.list [])])]

/-- First-occurrence accumulation of visitor ips, the model of the Python
set built by the visitor loop (a deterministic iteration order is chosen). -/
def collectIps (logs : List VisitorLog) : List String :=
  logs.foldl (fun acc l => if acc.contains l.ip_address then acc else acc ++ [l.ip_address]) []

/-- One today-visit entry of the visitor loop. -/
def todayVisitEntry (l : VisitorLog) : Value :=
  Value.dict
    [("ip", Value.str l.ip_address),
     ("timestamp", Value.str (fmtDateTime l.created_at)),
     ("date", Value.str (fmtDate l.created_at))]

/-- Embedding of workspace_to_dict (src/utils/data.py lines 85-141) on an
actual workspace row; the Python None branch is taken at the call sites,
which only pass a found workspace. `now` stands for datetime.utcnow(). -/
def workspace_to_dict (db : DB) (now : DateTime) (w : Workspace) : List (String × Value) :=
  let skills := (skillsOf db w.id).map
    (fun s => Value.dict [("name", Value.str s.name), ("level", Value.int s.level)])
  let projects := (projectsOf db w.id).map (fun p => Value.dict (project_to_dict p))
  let clients := (clientsOf db w.id).map (fun c => Value.dict (client_to_dict c))
  let messages := (messagesOf db w.id).map (fun m => Value.dict (message_to_dict m))
  let services := (servicesOf db w.id).map (fun s => Value.dict (service_to_dict s))
  let visitor_logs := visitorLogsOf db w.id
  let today_visits := (visitor_logs.filter (fun l => sameDate l.created_at now)).map todayVisitEntry
  let unique_ips := collectIps visitor_logs
  let notifs : List (String × Value) :=
    match notifSettingsOf db w.id with
    | none => []
    | some ns =>
      if ns.telegram_bot_token ≠ none ∧ ns.telegram_bot_token ≠ some "" then
        [("telegram", Value.dict
          [("bot_token", optStrV ns.telegram_bot_token),
           ("chat_id", optStrV ns.telegram_chat_id),
           ("configured_at", optFmt fmtDateTime ns.telegram_configured_at)])]
      else []
  [("username", Value.str w.slug),
   ("name", Value.str w.name),
   ("title", Value.str (orStr w.title "")),
   ("description", Value.str (orStr w.description "")),
   ("about", Value.str (orStr w.about "")),
   ("photo", Value.str (orStr w.photo "")),
   ("skills", Value.list skills),
   ("projects", Value.list projects),
   ("clients", Value.list clients),
   ("messages", Value.list messages),
   ("services", Value.list services),
   ("contact", Value.dict (orDict w.contact [])),
   ("social", Value.dict (orDict w.social [])),
   ("settings", Value.dict (orDict w.settings [("theme", Value.str "luxury-gold")])),
   ("visitors", Value.dict
     [("total", Value.int visitor_logs.length),
      ("today", Value.list today_visits),
      ("unique_ips", Value.list (unique_ips.map Value.str))]),
   ("notifications", Value.dict notifs)]

/-- Key assignment on an object: replace the first binding of the key,
append a new binding when the key is absent — Python dict assignment. -/
def setKey (kvs : List (String × Value)) (k : String) (v : Value) : List (String × Value) :=
  match kvs with
  | [] => [(k, v)]
  | (k', v') :: rest => if k' = k then (k, v) :: rest else (k', v') :: setKey rest k v

/-- Python `dict.update`: assign every binding of the second object into
the first, in order. -/
def dictUpdate (base ud : List (String × Value)) : List (String × Value) :=
  ud.foldl (fun acc kv => setKey acc kv.1 kv.2) base

/-- Modelled from the spec: determine_badge lives in utils/badges.py, which
is not under src/; the spec says only that a legacy project is "assigned a
derived badge" from its project type, so the badge is modelled as the
project-type string itself. -/
def determine_badge (ptype : Value) : String :=
  match ptype with
  | Value.str s => s
  | _ => "portfolio"

/-- Backward-compatibility normalization applied by load_data_from_json to
one legacy project object: add project_type (default portfolio) and badge
when absent. -/
def normalizeProject (p : Value) : Value :=
  match p with
  | Value.dict kvs =>
    let kvs1 := if hasKey kvs "project_type" then kvs
      else kvs ++ [("project_type", Value.str "portfolio")]
    let kvs2 := if hasKey kvs1 "badge" then kvs1
      else kvs1 ++ [("badge",
        Value.str (determine_badge ((lookup kvs1 "project_type").getD (Value.str "portfolio"))))]
    Value.dict kvs2
  | v => v

/-- Normalization of a flat-file portfolio record: rewrite its projects
list elementwise when present. -/
def normalizeUserData (v : Value) : Value :=
  match v with
  | Value.dict kvs =>
    match lookup kvs "projects" with
    | some (Value.list ps) =>
      Value.dict (setKey kvs "projects" (Value.list (ps.map normalizeProject)))
    | _ => Value.dict kvs
  | v => v

/-- The portfolios mapping of the flat-file document:
`data.get("portfolios", dict())` over the parsed file content. -/
def jsonPortfolios (jfile : Option (List (String × Value))) : List (String × Value) :=
  match lookup (jfile.getD []) "portfolios" with
  | some (Value.dict kvs) => kvs
  | _ => []

/-- Embedding of load_data_from_json (src/utils/data.py lines 324-350).
`jfile` is the parsed top-level object of data.json (`none` = file
absent); `jsonOk = false` models any exception in the body, which the
function swallows, returning the empty dict. The file is assumed
portfolio-shaped per the external-interface contract: a top-level
portfolios object mapping usernames to record objects. -/
def load_data_from_json (jsonOk : Bool) (jfile : Option (List (String × Value)))
    (username : Option String) : Value :=
  if jsonOk then
    let data := jfile.getD []
    match username with
    | some u =>
      match lookup (jsonPortfolios jfile) u with
      | some user_data => normalizeUserData user_data
      | none => Value.dict get_default_portfolio_data
    | none => Value.dict data
  else Value.dict []

/-- The global view built by load_data when no username is given: the full
user list (via user_to_dict) and a per-workspace summary object. -/
def global_data (db : DB) : Value :=
  Value.dict
    [("users", Value.list (db.users.map (fun u => Value.dict (user_to_dict u)))),
     ("portfolios", Value.dict (db.workspaces.map (fun ws =>
       (ws.slug, Value.dict
         [("name", Value.str ws.name),
          ("title", Value.str (orStr ws.title "")),
          ("description", Value.str (orStr ws.description "")),
          ("about", Value.str (orStr ws.about "")),
          ("photo", Value.str (orStr ws.photo "")),
          ("username", Value.str ws.slug),
          ("is_verified", Value.bool false)]))))]

/-- Embedding of load_data (src/utils/data.py lines 37-82). `dbOk = false`
models an exception anywhere in the relational path of the try block,
caught by the except clause that retries against the flat file. -/
def load_data (dbOk : Bool) (db : DB) (now : DateTime) (jsonOk : Bool)
    (jfile : Option (List (String × Value))) (username : Option String) : Value :=
  if dbOk then
    match username with
    | some u =>
      match get_workspace_by_username db u with
      | some w => Value.dict (workspace_to_dict db now w)
      | none => load_data_from_json jsonOk jfile (some u)
    | none => global_data db
  else load_data_from_json jsonOk jfile username

/-- String-valued dict get with default, for the scalar fields save_data
reads: present string wins (the empty string included), absent key yields
the default. -/
def getStrD (kvs : List (String × Value)) (k : String) (d : String) : String :=
  match lookup kvs k with
  | some (Value.str s) => s
  | _ => d

/-- Object-valued dict get with default, for the contact, social and
settings fields save_data reads. -/
def getDictD (kvs : List (String × Value)) (k : String)
    (d : List (String × Value)) : List (String × Value) :=
  match lookup kvs k with
  | some (Value.dict o) => o
  | _ => d

/-- Integer-valued dict get with default, for the skill level. -/
def getIntD (kvs : List (String × Value)) (k : String) (d : Int) : Int :=
  match lookup kvs k with
  | some (Value.int n) => n
  | _ => d

/-- Python falsy-`or` on an optional dict value holding a string: the
display-name argument `name or username` of workspace creation. -/
def pyOrStr (v : Option Value) (d : String) : String :=
  match v with
  | some (Value.str s) => if s = "" then d else s
  | _ => d

/-- Fresh autoincrement id for the workspaces table. -/
def freshWorkspaceId (db : DB) : Nat :=
  (db.workspaces.map (fun w => w.id)).foldl max 0 + 1

/-- The workspace row get_or_create_workspace inserts when the slug is
new: the given display name falling back to the username, empty
description and plan pro. -/
def createdWorkspace (db : DB) (username : String) (name : Option Value) : Workspace :=
  { id := freshWorkspaceId db, slug := username, name := pyOrStr name username,
    title := none, description := some "", about := none, photo := none,
    contact := none, social := none, settings := none, plan := "pro" }

/-- Embedding of get_or_create_workspace (src/utils/data.py lines 22-34):
find by slug, else insert the created row. Returns the updated store and
the workspace row. -/
def get_or_create_workspace (db : DB) (username : String) (name : Option Value) :
    DB × Workspace :=
  match get_workspace_by_username db username with
  | some w => (db, w)
  | none =>
    let w := createdWorkspace db username name
    ({ db with workspaces := db.workspaces ++ [w] }, w)

/-- One skill row built by save_data from a skills entry of the view. -/
def skillOfEntry (wid : Nat) (e : Value) : Skill :=
  match e with
  | Value.dict kvs => { workspace_id := wid, name := getStrD kvs "name" "",
                        level := getIntD kvs "level" 50 }
  | _ => { workspace_id := wid, name := "", level := 50 }

/-- Replacement of the first workspace row carrying the given slug by an
updated row, the in-place ORM update as seen through the table state. -/
def updateWorkspace (ws : List Workspace) (slug : String) (w' : Workspace) :
    List Workspace :=
  match ws with
  | [] => []
  | w :: rest => if w.slug == slug then w' :: rest
    else w :: updateWorkspace rest slug w'

/-- Embedding of save_data_to_json (src/utils/data.py lines 353-378): read
the current document, with a username set portfolios[username] to the view,
without one merge the view into the top level, and write the document back.
The pre-write backup does not change the document and is not modelled. -/
def save_data_to_json (jfile : Option (List (String × Value)))
    (user_data : List (String × Value)) (username : Option String) :
    Option (List (String × Value)) :=
  let all := jfile.getD []
  match username with
  | some u =>
    let all1 := if hasKey all "portfolios" then all
      else all ++ [("portfolios", Value.dict [])]
    let ports :=
      match lookup all1 "portfolios" with
      | some (Value.dict kvs) => kvs
      | _ => []
    some (setKey all1 "portfolios" (Value.dict (setKey ports u (Value.dict user_data))))
  | none => some (dictUpdate all user_data)

/-- Embedding of save_data (src/utils/data.py lines 270-320). The view is
the raw dict the caller passes. With no username the call redirects to the
flat file; with one it get-or-creates the workspace, overwrites its scalar
and JSON fields, and when the view carries a skills key replaces the
workspace's skill rows wholesale. `dbOk = false` models an exception in
the relational path: the transaction is rolled back (relational state
unchanged) and the view is written to the flat file instead. The result is
the pair of the relational state and the flat-file document after the
call. -/
def save_data (dbOk : Bool) (db : DB) (jfile : Option (List (String × Value)))
    (user_data : List (String × Value)) (username : Option String) :
    DB × Option (List (String × Value)) :=
  match username with
  | none => (db, save_data_to_json jfile user_data none)
  | some u =>
    if dbOk then
      let (db1, w) := get_or_create_workspace db u (lookup user_data "name")
      let w' : Workspace :=
        { w with
          name := getStrD user_data "name" w.name,
          title := some (getStrD user_data "title" ""),
          description := some (getStrD user_data "description" ""),
          photo := some (getStrD user_data "photo" ""),
          about := some (getStrD user_data "about" ""),
          contact := some (getDictD user_data "contact" []),
          social := some (getDictD user_data "social" []),
          settings := some (getDictD user_data "settings" [("theme", Value.str "luxury-gold")]) }
      let db2 := { db1 with workspaces := updateWorkspace db1.workspaces u w' }
      let db3 :=
        if hasKey user_data "skills" then
          let entries :=
            match lookup user_data "skills" with
            | some (Value.list xs) => xs
            | _ => []
          { db2 with skills :=
              db2.skills.filter (fun s => s.workspace_id != w.id) ++
                entries.map (skillOfEntry w.id) }
        else db2
      (db3, jfile)
    else (db, save_data_to_json jfile user_data (some u))

/-- Response of the public portfolio route. -/
inductive PortfolioResponse where
  | notFound
  | redirectHome
  | rendered (data : Value) (theme : String)

/-- Theme extraction used by the routes:
`data.get("settings", dict()).get("theme", "luxury-gold")`. -/
def themeOf (data : Value) : String :=
  match data with
  | Value.dict kvs =>
    match lookup kvs "settings" with
    | some (Value.dict s) => getStrD s "theme" "luxury-gold"
    | _ => "luxury-gold"
  | _ => "luxury-gold"

/-- Embedding of user_portfolio (src/blueprints/portfolio/routes.py lines
17-43) against a healthy relational backend: the user entry is the first
element of the global view's user list whose username field matches, which
under user_to_dict is the first User row with that username; role and
verified flag are read off that row the way the route reads them off the
dict. -/
def user_portfolio (db : DB) (now : DateTime) (jsonOk : Bool)
    (jfile : Option (List (String × Value))) (username : String) : PortfolioResponse :=
  let user_data := load_data true db now jsonOk jfile (some username)
  let user_entry := db.users.find? (fun u => u.username == username)
  if user_entry.isNone && username != "admin" then PortfolioResponse.notFound
  else
    let user_data2 :=
      match user_entry, user_data with
      | some u, Value.dict kvs =>
        Value.dict (setKey (setKey kvs "is_verified" (Value.bool u.is_verified))
          "username" (Value.str username))
      | _, v => v
    let is_admin_user :=
      (match user_entry with
       | some u => u.role == "admin"
       | none => false) || username == "admin"
    if is_admin_user then PortfolioResponse.redirectHome
    else PortfolioResponse.rendered user_data2 (themeOf user_data2)

/-- Outcome of the attempt to import and run renderer A (WeasyPrint):
available and rendering, library missing, an OSError with the given
message, or any other exception. -/
inductive WeasyStatus where
  | available
  | importErr
  | osErr (msg : String)
  | otherErr

/-- Outcome of the attempt to import and run renderer B (pdfkit backed by
the wkhtmltopdf binary): library missing, rendering fine, an OSError with
the given message (the binary absent from the search path raises this), or
any other exception with its message. -/
inductive PdfkitStatus where
  | notInstalled
  | ok
  | osErr (msg : String)
  | otherErr (msg : String)

/-- Response of the CV download route: a streamed PDF attachment or a
redirect to the preview page carrying a flashed error message. -/
inductive CvResponse where
  | file (filename : String)
  | redirectPreview (flashMsg : String)

/-- Substring test, the model of the Python `in` operator on strings. -/
def containsSubstr (s pat : String) : Bool :=
  decide ((s.splitOn pat).length > 1)

/-- Flash shown when renderer A fails with the known missing GTK shared
library. -/
def gtkRemediationMsg : String :=
  "PDF generation failed: missing GTK runtime (libgobject). On Windows install the MSYS2 GTK runtime (see https://weasyprint.readthedocs.io/en/latest/install.html#windows) or install wkhtmltopdf and python-pdfkit as an alternative (https://wkhtmltopdf.org/downloads.html)."

/-- Flash shown when neither PDF library is importable. -/
def noLibraryMsg : String :=
  "PDF generation library not available. Please install WeasyPrint (and its GTK runtime on Windows) or install wkhtmltopdf and python-pdfkit as an alternative."

/-- Flash shown when renderer B's external binary is missing or fails. -/
def wkhtmlMissingMsg : String :=
  "wkhtmltopdf not found. Install wkhtmltopdf and ensure it is on the PATH, or install WeasyPrint with GTK runtime on Windows."

/-- Embedding of download_cv (src/blueprints/portfolio/routes.py lines
117-185). `displayName` is the profile's resolved display name,
`data.get("name", "CV")`. The route checks the OSError message for the
substring libgobject (the longer libgobject-2.0-0 alternative is subsumed
by the shorter one). -/
def download_cv (weasy : WeasyStatus) (pk : PdfkitStatus) (displayName : String) :
    CvResponse :=
  let filename := (displayName.replace " " "_") ++ "_CV.pdf"
  let fallback : CvResponse :=
    match pk with
    | PdfkitStatus.ok => CvResponse.file filename
    | PdfkitStatus.notInstalled => CvResponse.redirectPreview noLibraryMsg
    | PdfkitStatus.osErr _ => CvResponse.redirectPreview wkhtmlMissingMsg
    | PdfkitStatus.otherErr m => CvResponse.redirectPreview ("Error generating PDF: " ++ m)
  match weasy with
  | WeasyStatus.available => CvResponse.file filename
  | WeasyStatus.importErr => fallback
  | WeasyStatus.osErr msg =>
    if containsSubstr msg "libgobject" then CvResponse.redirectPreview gtkRemediationMsg
    else fallback
  | WeasyStatus.otherErr => fallback

/-- The contact form fields the route reads, as submitted. -/
structure ContactForm where
  website : String
  name : String
  email : String
  message : String
  portfolio_owner : String
  request_type : String
  interest_area : String
  seriousness : String
  contact_pref : String
  company : String

/-- Response of the contact route: the silent JSON success of the honeypot
branch, or a redirect back carrying a flashed message and its kind. -/
inductive ContactResponse where
  | jsonSuccess
  | redirectBack (flashMsg : String) (flashKind : String)

/-- Python `str.strip()`: drop leading and trailing whitespace, modelled
structurally over the character list. -/
def pyStrip (s : String) : String :=
  String.mk (((s.data.dropWhile Char.isWhitespace).reverse.dropWhile
    Char.isWhitespace).reverse)

/-- Python `s or None` on a stripped form field. -/
def emptyToNone (s : String) : Option String :=
  if s = "" then none else some s

/-- Fresh autoincrement id for the messages table. -/
def freshMessageId (db : DB) : Nat :=
  (db.messages.map (fun m => m.id)).foldl max 0 + 1

/-- Modelled from the spec: send_telegram_notification lives in
utils/notifications.py, which is not under src/. The spec describes it as
a best-effort collaborator taking a formatted message and a target
username whose failure must not roll back or fail the intake, so it is
modelled as a total function reporting success or failure and never
raising. -/
def send_telegram_notification (outcome : Bool) (_text : String) (_username : String) : Bool :=
  outcome

/-- The message row the contact route persists for a validated submission
against the resolved workspace id: stripped name and email, body truncated
to 5000 characters, unread, category portfolio, visitor role, and the
optional portfolio metadata fields mapped empty-to-None. -/
def contactRow (db : DB) (now : DateTime) (form : ContactForm) (wid : Nat) : MessageRow :=
  { id := freshMessageId db, workspace_id := wid, name := pyStrip form.name,
    email := pyStrip form.email, message := (pyStrip form.message).take 5000,
    is_read := false, category := some "portfolio", sender_id := none,
    receiver_id := none, sender_role := some "visitor",
    request_type := emptyToNone (pyStrip form.request_type),
    interest_area := emptyToNone (pyStrip form.interest_area),
    seriousness := emptyToNone (pyStrip form.seriousness),
    contact_pref := emptyToNone (pyStrip form.contact_pref),
    company := emptyToNone (pyStrip form.company),
    created_at := some now }

/-- Embedding of the contact route (src/blueprints/portfolio/routes.py
lines 188-262): honeypot, rate limit, required-field and workspace checks
in order, then insertion of the message row, commit, the best-effort owner
Telegram call, and the success flash. `rateOk` is the collaborator
rate-limiter verdict and `notifOut` the notification sender's outcome.
Returns the response and the relational state after the call. -/
def contact (db : DB) (now : DateTime) (form : ContactForm) (rateOk : Bool)
    (notifOut : Bool) : ContactResponse × DB :=
  if form.website ≠ "" then (ContactResponse.jsonSuccess, db)
  else if ¬ rateOk then (ContactResponse.redirectBack "Too many requests." "danger", db)
  else
    let name := pyStrip form.name
    let email := pyStrip form.email
    let message_content := pyStrip form.message
    let portfolio_owner := pyStrip form.portfolio_owner
    if name = "" ∨ email = "" ∨ message_content = "" ∨ portfolio_owner = "" then
      (ContactResponse.redirectBack "Required fields missing." "danger", db)
    else
      match db.workspaces.find? (fun w => w.slug == portfolio_owner) with
      | none =>
        (ContactResponse.redirectBack "Error sending message. Please try again." "danger", db)
      | some ws =>
        let new_message := contactRow db now form ws.id
        let db1 := { db with messages := db.messages ++ [new_message] }
        let _ := send_telegram_notification notifOut (message_content.take 200) portfolio_owner
        (ContactResponse.redirectBack "Message sent successfully! We will get back to you soon."
          "success", db1)

/-- Recognizer of the fixed pattern YYYY-MM-DD HH:MM:SS. -/
def isDateTimePat (s : String) : Bool :=
  match s.data with
  | [y1, y2, y3, y4, a1, m1, m2, a2, d1, d2, sp, h1, h2, c1, i1, i2, c2, s1, s2] =>
    y1.isDigit && y2.isDigit && y3.isDigit && y4.isDigit && a1 == '-' &&
    m1.isDigit && m2.isDigit && a2 == '-' && d1.isDigit && d2.isDigit &&
    sp == ' ' && h1.isDigit && h2.isDigit && c1 == ':' && i1.isDigit && i2.isDigit &&
    c2 == ':' && s1.isDigit && s2.isDigit
  | _ => false

/-- Recognizer of the date-only pattern YYYY-MM-DD. -/
def isDatePat (s : String) : Bool :=
  match s.data with
  | [y1, y2, y3, y4, a1, m1, m2, a2, d1, d2] =>
    y1.isDigit && y2.isDigit && y3.isDigit && y4.isDigit && a1 == '-' &&
    m1.isDigit && m2.isDigit && a2 == '-' && d1.isDigit && d2.isDigit
  | _ => false

/-- Recognizer of the ISO-8601 pattern YYYY-MM-DDTHH:MM:SS with the
literal separator T. -/
def isIsoPat (s : String) : Bool :=
  match s.data with
  | [y1, y2, y3, y4, a1, m1, m2, a2, d1, d2, sp, h1, h2, c1, i1, i2, c2, s1, s2] =>
    y1.isDigit && y2.isDigit && y3.isDigit && y4.isDigit && a1 == '-' &&
    m1.isDigit && m2.isDigit && a2 == '-' && d1.isDigit && d2.isDigit &&
    sp == 'T' && h1.isDigit && h2.isDigit && c1 == ':' && i1.isDigit && i2.isDigit &&
    c2 == ':' && s1.isDigit && s2.isDigit
  | _ => false

/-- A rendered JSON value that is null or a string matching the given
date pattern. -/
def isDateValue (pat : String → Bool) : Value → Prop
  | Value.null => True
  | Value.str s => pat s = true
  | _ => False

/-! Sample rows and stores used by the witness theorems. -/

/-- A reference timestamp for witnesses. -/
def sampleNow : DateTime := ⟨2024, 6, 1, 12, 0, 0⟩

/-- A concrete workspace row. -/
def wsAlice : Workspace :=
  { id := 1, slug := "alice", name := "Alice", title := some "Dev",
    description := some "d", about := none, photo := none,
    contact := none, social := none,
    settings := some [("theme", Value.str "dark")], plan := "pro" }

/-- A store holding just the alice workspace and one skill row. -/
def dbAlice : DB :=
  { workspaces := [wsAlice], users := [],
    skills := [{ workspace_id := 1, name := "python", level := 80 }],
    projects := [], clients := [], messages := [], services := [],
    visitorLogs := [], notifSettings := [] }

/-- An empty relational store. -/
def dbEmpty : DB :=
  { workspaces := [], users := [], skills := [], projects := [], clients := [],
    messages := [], services := [], visitorLogs := [], notifSettings := [] }

/-- A concrete user row carrying the admin role. -/
def userBob : User :=
  { id := 1, username := "bob", email := "bob@example.com", password_hash := "h",
    role := "admin", is_demo := false, is_verified := true,
    must_change_password := false, created_at := none }

/-- A store holding just the bob user row. -/
def dbBob : DB := { dbEmpty with users := [userBob] }

/-- A concrete passing contact submission for the C7 witness. -/
def formCarol : ContactForm :=
  { website := "", name := "Carol", email := "carol@example.com",
    message := "Hi there", portfolio_owner := "alice", request_type := "",
    interest_area := "", seriousness := "", contact_pref := "", company := "" }

/-- A concrete service row carrying a timestamp, for the C6
counterexample. -/
def svcSample : Service :=
  { id := 1, workspace_id := 1, title := "Design", description := none,
    short_description := none, category := none, pricing_type := none,
    price_min := none, price_max := none, currency := none,
    deliverables := none, duration := none, skills_required := none,
    image := none, gallery := none, is_active := true, is_featured := false,
    created_at := some ⟨2024, 1, 2, 3, 4, 5⟩, updated_at := none }

/-- The workspace row as save_data leaves it when the saved view carries
string values for the five scalar fields and object values for contact,
social and settings: id, slug and plan are untouched, the rest overwritten
from the view. -/
def savedWorkspace (w : Workspace) (n ti de ab ph : String)
    (ct so st : List (String × Value)) : Workspace :=
  { id := w.id, slug := w.slug, name := n, title := some ti,
    description := some de, about := some ab, photo := some ph,
    contact := some ct, social := some so, settings := some st, plan := w.plan }

/-- A saved view carrying an empty settings mapping, for the C2
counterexample. -/
def udEmptySettings : List (String × Value) :=
  [("name", Value.str "Alice"), ("settings", Value.dict []),
   ("skills", Value.list [])]

/-- The view loaded back right after saving the empty-settings view into
the empty store. -/
def outEmptySettings : Value :=
  load_data true (save_data true dbEmpty none udEmptySettings (some "alice")).1
    sampleNow true none (some "alice")

/-- The bindings of the loaded empty-settings view. -/
def outEmptySettingsKvs : List (String × Value) :=
  match outEmptySettings with
  | Value.dict kvs => kvs
  | _ => []

/-- A fully populated saved view for the C2 witness. -/
def udRoundtrip : List (String × Value) :=
  [("name", Value.str "Alice"),
   ("title", Value.str "Engineer"),
   ("description", Value.str "Desc"),
   ("about", Value.str "About"),
   ("photo", Value.str "p.png"),
   ("contact", Value.dict [("email", Value.str "alice@example.com")]),
   ("social", Value.dict []),
   ("settings", Value.dict [("theme", Value.str "dark")]),
   ("skills", Value.list
     [Value.dict [("name", Value.str "python"), ("level", Value.int 70)]])]

/-! Claim theorems. -/

theorem digitChar_isDigit (n : Nat) : (digitChar n).isDigit = true := by
  unfold digitChar
  have h : n % 10 < 10 := Nat.mod_lt _ (by decide)
  generalize hk : n % 10 = k at h ⊢
  interval_cases k <;> decide

theorem data_append (a b : String) : (a ++ b).data = a.data ++ b.data := rfl

theorem fmtDateTime_pat (d : DateTime) : isDateTimePat (fmtDateTime d) = true := by
  unfold fmtDateTime isDateTimePat
  simp only [data_append, pad4, pad2]
  simp [digitChar_isDigit]

theorem fmtDate_pat (d : DateTime) : isDatePat (fmtDate d) = true := by
  unfold fmtDate isDatePat
  simp only [data_append, pad4, pad2]
  simp [digitChar_isDigit]

theorem isoformat_pat (d : DateTime) : isIsoPat (isoformat d) = true := by
  unfold isoformat isIsoPat
  simp only [data_append, pad4, pad2]
  simp [digitChar_isDigit]

theorem optFmt_isDateValue (pat : String → Bool) (f : DateTime → String)
    (hf : ∀ d, pat (f d) = true) (x : Option DateTime) :
    isDateValue pat (optFmt f x) := by
  cases x with
  | none => trivial
  | some d => exact hf d

/-- C1: for every username that resolves to a Workspace record in the
relational store, load_data returns exactly the mapping workspace_to_dict
produces for that workspace — the façade adds, removes and changes
nothing. -/
theorem load_data_refines_materializer (db : DB) (now : DateTime) (jsonOk : Bool)
    (jfile : Option (List (String × Value))) (u : String) (w : Workspace)
    (h : get_workspace_by_username db u = some w) :
    load_data true db now jsonOk jfile (some u) = Value.dict (workspace_to_dict db now w) := by
  simp [load_data, h]

/-- Witness for C1 at the sample store: alice resolves and load_data equals
the materializer output. -/
theorem load_data_refines_materializer_witness :
    get_workspace_by_username dbAlice "alice" = some wsAlice ∧
    load_data true dbAlice sampleNow true none (some "alice") =
      Value.dict (workspace_to_dict dbAlice sampleNow wsAlice) :=
  ⟨rfl, load_data_refines_materializer dbAlice sampleNow true none "alice" wsAlice rfl⟩

/-- C3: save_data leaves the Project, Client, Message and Service tables of
the relational store unchanged, on the relational path, the no-username
path and the rollback-to-flat-file path alike. -/
theorem save_data_preserves_collections (dbOk : Bool) (db : DB)
    (jfile : Option (List (String × Value))) (ud : List (String × Value))
    (username : Option String) :
    (save_data dbOk db jfile ud username).1.projects = db.projects ∧
    (save_data dbOk db jfile ud username).1.clients = db.clients ∧
    (save_data dbOk db jfile ud username).1.messages = db.messages ∧
    (save_data dbOk db jfile ud username).1.services = db.services := by
  rcases username with _ | u
  · simp [save_data]
  · cases dbOk
    · simp [save_data]
    · simp only [save_data, get_or_create_workspace]
      cases hw : get_workspace_by_username db u <;> dsimp only <;>
        cases hsk : hasKey ud "skills" <;> simp [hsk]

/-- C5: the materialized project mapping carries each of the four request
keys exactly when the stored project_type is the string request; for any
other stored type (the portfolio type included) the keys are absent, not
null. -/
theorem project_to_dict_request_keys (p : Project) :
    (hasKey (project_to_dict p) "request_budget_min" = true ↔ p.project_type = some "request") ∧
    (hasKey (project_to_dict p) "request_budget_max" = true ↔ p.project_type = some "request") ∧
    (hasKey (project_to_dict p) "request_deadline" = true ↔ p.project_type = some "request") ∧
    (hasKey (project_to_dict p) "request_status" = true ↔ p.project_type = some "request") := by
  by_cases h : p.project_type = some "request" <;>
    simp [project_to_dict, h, hasKey, lookup]

/-- C10: load_data is total over both failure modes: a relational-path
failure is retried against the flat file for the same username argument, a
flat-file failure yields the empty mapping, and that empty mapping is not
the documented default template. -/
theorem load_data_total_and_fallback :
    (∀ (db : DB) (now : DateTime) (jsonOk : Bool)
       (jfile : Option (List (String × Value))) (username : Option String),
      load_data false db now jsonOk jfile username = load_data_from_json jsonOk jfile username) ∧
    (∀ (jfile : Option (List (String × Value))) (username : Option String),
      load_data_from_json false jfile username = Value.dict []) ∧
    Value.dict [] ≠ Value.dict get_default_portfolio_data := by
  refine ⟨fun db now jsonOk jfile username => by simp [load_data],
          fun jfile username => by simp [load_data_from_json],
          by simp [get_default_portfolio_data]⟩

/-- C4: for a username absent from the relational store and from the
flat-file portfolios mapping, load_data returns the hard-coded default
template, whose name is empty, whose settings carry the default
luxury-gold theme, and whose skills, projects, services, messages and
clients lists are all empty. -/
theorem load_data_absent_default (db : DB) (now : DateTime)
    (jfile : Option (List (String × Value))) (u : String)
    (h1 : get_workspace_by_username db u = none)
    (h2 : lookup (jsonPortfolios jfile) u = none) :
    load_data true db now true jfile (some u) = Value.dict get_default_portfolio_data ∧
    lookup get_default_portfolio_data "name" = some (Value.str "") ∧
    lookup get_default_portfolio_data "settings" =
      some (Value.dict [("theme", Value.str "luxury-gold")]) ∧
    lookup get_default_portfolio_data "skills" = some (Value.list []) ∧
    lookup get_default_portfolio_data "projects" = some (Value.list []) ∧
    lookup get_default_portfolio_data "services" = some (Value.list []) ∧
    lookup get_default_portfolio_data "messages" = some (Value.list []) ∧
    lookup get_default_portfolio_data "clients" = some (Value.list []) := by
  refine ⟨?_, rfl, rfl, rfl, rfl, rfl, rfl, rfl⟩
  simp [load_data, load_data_from_json, h1, h2]

/-- Witness for C4: an unknown username against the empty store and a
missing flat file yields the default template. -/
theorem load_data_absent_default_witness :
    get_workspace_by_username dbEmpty "ghost" = none ∧
    lookup (jsonPortfolios none) "ghost" = none ∧
    (load_data true dbEmpty sampleNow true none (some "ghost") =
       Value.dict get_default_portfolio_data ∧
     lookup get_default_portfolio_data "name" = some (Value.str "") ∧
     lookup get_default_portfolio_data "settings" =
       some (Value.dict [("theme", Value.str "luxury-gold")]) ∧
     lookup get_default_portfolio_data "skills" = some (Value.list []) ∧
     lookup get_default_portfolio_data "projects" = some (Value.list []) ∧
     lookup get_default_portfolio_data "services" = some (Value.list []) ∧
     lookup get_default_portfolio_data "messages" = some (Value.list []) ∧
     lookup get_default_portfolio_data "clients" = some (Value.list [])) :=
  ⟨rfl, rfl, load_data_absent_default dbEmpty sampleNow none "ghost" rfl rfl⟩

/-- C9: a public portfolio request for the username admin, or for a
username whose matching user record has the admin role, is answered by a
redirect to the home page, never by rendering the portfolio. -/
theorem user_portfolio_admin_redirect (db : DB) (now : DateTime) (jsonOk : Bool)
    (jfile : Option (List (String × Value))) (username : String)
    (h : username = "admin" ∨
      ∃ u, db.users.find? (fun x => x.username == username) = some u ∧ u.role = "admin") :
    user_portfolio db now jsonOk jfile username = PortfolioResponse.redirectHome := by
  unfold user_portfolio
  rcases h with h | ⟨u, hu, hrole⟩
  · subst h
    simp
  · simp [hu, hrole]

/-- Witness for C9: a store holding a user row with the admin role, whose
portfolio request is redirected home. -/
theorem user_portfolio_admin_redirect_witness :
    dbBob.users.find? (fun x => x.username == "bob") = some userBob ∧
    userBob.role = "admin" ∧
    user_portfolio dbBob sampleNow true none "bob" = PortfolioResponse.redirectHome :=
  ⟨rfl, rfl, user_portfolio_admin_redirect dbBob sampleNow true none "bob"
    (Or.inr ⟨userBob, rfl, rfl⟩)⟩

/-- C8: when renderer A is missing or fails without the known GTK
shared-library defect and renderer B is missing or its binary absent, the
CV download streams no file and redirects to the preview page with one of
the two library-install remediation messages. -/
theorem download_cv_both_unavailable (w : WeasyStatus) (pk : PdfkitStatus)
    (displayName : String)
    (hw : w = WeasyStatus.importErr ∨
      (∃ m, w = WeasyStatus.osErr m ∧ containsSubstr m "libgobject" = false) ∨
      w = WeasyStatus.otherErr)
    (hp : pk = PdfkitStatus.notInstalled ∨ ∃ m, pk = PdfkitStatus.osErr m) :
    (download_cv w pk displayName = CvResponse.redirectPreview noLibraryMsg ∨
     download_cv w pk displayName = CvResponse.redirectPreview wkhtmlMissingMsg) ∧
    ∀ f, download_cv w pk displayName ≠ CvResponse.file f := by
  have hmain : download_cv w pk displayName = CvResponse.redirectPreview noLibraryMsg ∨
      download_cv w pk displayName = CvResponse.redirectPreview wkhtmlMissingMsg := by
    rcases hp with hp | ⟨m2, hp⟩ <;> subst hp <;>
      rcases hw with hw | ⟨m, hw, hlib⟩ | hw <;> subst hw <;>
        simp [download_cv, *]
  refine ⟨hmain, fun f hf => ?_⟩
  rcases hmain with hm | hm <;> rw [hm] at hf <;> exact CvResponse.noConfusion hf

/-- Witness for C8: renderer A not importable and renderer B not
installed redirects to the preview with the no-library message. -/
theorem download_cv_both_unavailable_witness :
    ((download_cv WeasyStatus.importErr PdfkitStatus.notInstalled "Alice Smith" =
        CvResponse.redirectPreview noLibraryMsg ∨
      download_cv WeasyStatus.importErr PdfkitStatus.notInstalled "Alice Smith" =
        CvResponse.redirectPreview wkhtmlMissingMsg) ∧
     ∀ f, download_cv WeasyStatus.importErr PdfkitStatus.notInstalled "Alice Smith" ≠
        CvResponse.file f) :=
  download_cv_both_unavailable WeasyStatus.importErr PdfkitStatus.notInstalled "Alice Smith"
    (Or.inl rfl) (Or.inl rfl)

/-- C7: for a contact submission that passes validation and resolves its
workspace, the persisted message and the success response are the same
whatever the outcome of the best-effort owner notification: the row stays
appended and the submitter sees the success flash for either outcome. -/
theorem contact_notification_decoupled (db : DB) (now : DateTime) (form : ContactForm)
    (w : Workspace)
    (hhp : form.website = "")
    (hn : pyStrip form.name ≠ "") (he : pyStrip form.email ≠ "")
    (hm : pyStrip form.message ≠ "") (ho : pyStrip form.portfolio_owner ≠ "")
    (hw : db.workspaces.find? (fun x => x.slug == pyStrip form.portfolio_owner) = some w) :
    ∀ notifOut : Bool,
      (contact db now form true notifOut).1 =
        ContactResponse.redirectBack
          "Message sent successfully! We will get back to you soon." "success" ∧
      ∃ m, (contact db now form true notifOut).2.messages = db.messages ++ [m] := by
  intro notifOut
  constructor
  · unfold contact
    simp [hhp, hn, he, hm, ho, hw]
  · refine ⟨contactRow db now form w.id, ?_⟩
    unfold contact
    simp [hhp, hn, he, hm, ho, hw]




/-- Witness for C7 at a failing notification outcome: the message row is
persisted and the success flash is returned all the same. -/
theorem contact_notification_decoupled_witness :
    formCarol.website = "" ∧
    dbAlice.workspaces.find? (fun x => x.slug == pyStrip formCarol.portfolio_owner) =
      some wsAlice ∧
    ((contact dbAlice sampleNow formCarol true false).1 =
        ContactResponse.redirectBack
          "Message sent successfully! We will get back to you soon." "success" ∧
      ∃ m, (contact dbAlice sampleNow formCarol true false).2.messages =
        dbAlice.messages ++ [m]) :=
  ⟨rfl, rfl,
    contact_notification_decoupled dbAlice sampleNow formCarol wsAlice rfl
      (by decide) (by decide) (by decide) (by decide) rfl false⟩

/-- C6 counterexample: the materialized service timestamp is a present
non-null string rendered by isoformat, and it matches neither the fixed
pattern YYYY-MM-DD HH:MM:SS nor the date-only pattern YYYY-MM-DD. -/
theorem service_isoformat_counterexample :
    lookup (service_to_dict svcSample) "created_at" =
      some (Value.str "2024-01-02T03:04:05") ∧
    isDateTimePat "2024-01-02T03:04:05" = false ∧
    isDatePat "2024-01-02T03:04:05" = false ∧
    Value.str "2024-01-02T03:04:05" ≠ Value.null :=
  ⟨rfl, by decide, by decide, by simp⟩

/-- C6 amended: every present date/time field of materialized clients,
messages, projects and notification settings is a string of the fixed
pattern YYYY-MM-DD HH:MM:SS or the date-only pattern YYYY-MM-DD and every
absent date renders as null — while the two service timestamps are
ISO-8601 strings of pattern YYYY-MM-DDTHH:MM:SS (with the separator T),
likewise null when absent. -/
theorem date_fields_null_or_pattern :
    (∀ c : Client,
      (∃ v, lookup (client_to_dict c) "deadline" = some v ∧ isDateValue isDatePat v) ∧
      (∃ v, lookup (client_to_dict c) "start_date" = some v ∧ isDateValue isDatePat v) ∧
      (∃ v, lookup (client_to_dict c) "created_at" = some v ∧
        isDateValue isDateTimePat v) ∧
      (∃ v, lookup (client_to_dict c) "status_updated_at" = some v ∧
        isDateValue isDateTimePat v)) ∧
    (∀ m : MessageRow,
      ∃ v, lookup (message_to_dict m) "date" = some v ∧ isDateValue isDateTimePat v) ∧
    (∀ p : Project,
      (∃ v, lookup (project_to_dict p) "created_at" = some v ∧
        isDateValue isDateTimePat v) ∧
      (lookup (project_to_dict p) "request_deadline" = none ∨
        ∃ v, lookup (project_to_dict p) "request_deadline" = some v ∧
          isDateValue isDatePat v)) ∧
    (∀ ns : NotificationSettings,
      isDateValue isDateTimePat (optFmt fmtDateTime ns.telegram_configured_at)) ∧
    (∀ s : Service,
      (∃ v, lookup (service_to_dict s) "created_at" = some v ∧ isDateValue isIsoPat v) ∧
      (∃ v, lookup (service_to_dict s) "updated_at" = some v ∧ isDateValue isIsoPat v)) := by
  refine ⟨fun c => ⟨⟨_, rfl, optFmt_isDateValue _ _ fmtDate_pat _⟩,
      ⟨_, rfl, optFmt_isDateValue _ _ fmtDate_pat _⟩,
      ⟨_, rfl, optFmt_isDateValue _ _ fmtDateTime_pat _⟩,
      ⟨_, rfl, optFmt_isDateValue _ _ fmtDateTime_pat _⟩⟩,
    fun m => ⟨_, rfl, optFmt_isDateValue _ _ fmtDateTime_pat _⟩,
    fun p => ?_,
    fun ns => optFmt_isDateValue _ _ fmtDateTime_pat _,
    fun s => ⟨⟨_, rfl, optFmt_isDateValue _ _ isoformat_pat _⟩,
      ⟨_, rfl, optFmt_isDateValue _ _ isoformat_pat _⟩⟩⟩
  by_cases h : p.project_type = some "request"
  · refine ⟨⟨optFmt fmtDateTime p.created_at, ?_,
        optFmt_isDateValue _ _ fmtDateTime_pat _⟩,
      Or.inr ⟨optFmt fmtDate p.request_deadline, ?_,
        optFmt_isDateValue _ _ fmtDate_pat _⟩⟩ <;>
      simp [project_to_dict, h, lookup]
  · refine ⟨⟨optFmt fmtDateTime p.created_at, ?_,
        optFmt_isDateValue _ _ fmtDateTime_pat _⟩, Or.inl ?_⟩ <;>
      simp [project_to_dict, h, lookup]

theorem orStr_some_empty (s : String) : orStr (some s) "" = s := by
  by_cases h : s = "" <;> simp [orStr, h]

theorem orDict_some_nil (d : List (String × Value)) : orDict (some d) [] = d := by
  cases d <;> rfl

theorem orDict_some_of_ne (d x : List (String × Value)) (h : d ≠ []) :
    orDict (some d) x = d := by
  cases d with
  | nil => exact absurd rfl h
  | cons a l => rfl

theorem wtd_lookup_name (db : DB) (now : DateTime) (w : Workspace) :
    lookup (workspace_to_dict db now w) "name" = some (Value.str w.name) := rfl

theorem wtd_lookup_title (db : DB) (now : DateTime) (w : Workspace) :
    lookup (workspace_to_dict db now w) "title" =
      some (Value.str (orStr w.title "")) := rfl

theorem wtd_lookup_description (db : DB) (now : DateTime) (w : Workspace) :
    lookup (workspace_to_dict db now w) "description" =
      some (Value.str (orStr w.description "")) := rfl

theorem wtd_lookup_about (db : DB) (now : DateTime) (w : Workspace) :
    lookup (workspace_to_dict db now w) "about" =
      some (Value.str (orStr w.about "")) := rfl

theorem wtd_lookup_photo (db : DB) (now : DateTime) (w : Workspace) :
    lookup (workspace_to_dict db now w) "photo" =
      some (Value.str (orStr w.photo "")) := rfl

theorem wtd_lookup_contact (db : DB) (now : DateTime) (w : Workspace) :
    lookup (workspace_to_dict db now w) "contact" =
      some (Value.dict (orDict w.contact [])) := rfl

theorem wtd_lookup_social (db : DB) (now : DateTime) (w : Workspace) :
    lookup (workspace_to_dict db now w) "social" =
      some (Value.dict (orDict w.social [])) := rfl

theorem wtd_lookup_settings (db : DB) (now : DateTime) (w : Workspace) :
    lookup (workspace_to_dict db now w) "settings" =
      some (Value.dict (orDict w.settings [("theme", Value.str "luxury-gold")])) := rfl

theorem wtd_lookup_skills (db : DB) (now : DateTime) (w : Workspace) :
    lookup (workspace_to_dict db now w) "skills" =
      some (Value.list ((skillsOf db w.id).map
        (fun s => Value.dict [("name", Value.str s.name), ("level", Value.int s.level)]))) := rfl

theorem find_updateWorkspace (ws : List Workspace) (u : String) (w' : Workspace)
    (hex : (ws.find? (fun w => w.slug == u)).isSome = true)
    (hw' : (w'.slug == u) = true) :
    (updateWorkspace ws u w').find? (fun w => w.slug == u) = some w' := by
  induction ws with
  | nil => simp at hex
  | cons a l ih =>
    unfold updateWorkspace
    by_cases ha : (a.slug == u) = true
    · rw [if_pos ha]
      exact List.find?_cons_of_pos _ hw'
    · rw [if_neg ha]
      have hstep : List.find? (fun w => w.slug == u) (a :: updateWorkspace l u w') =
          List.find? (fun w => w.slug == u) (updateWorkspace l u w') :=
        List.find?_cons_of_neg _ ha
      rw [hstep]
      have hstep2 : List.find? (fun w => w.slug == u) (a :: l) =
          List.find? (fun w => w.slug == u) l := List.find?_cons_of_neg _ ha
      rw [hstep2] at hex
      exact ih hex

theorem isSome_find_append_singleton {α : Type} (p : α → Bool) (ws : List α)
    (aNew : α) (h : p aNew = true) : ((ws ++ [aNew]).find? p).isSome = true := by
  induction ws with
  | nil => simp [List.find?_cons_of_pos _ h]
  | cons a l ih =>
    by_cases ha : p a = true
    · simp [List.find?_cons_of_pos _ ha]
    · simpa [List.find?_cons_of_neg _ ha] using ih

theorem filter_replaced_skills (skills : List Skill) (wid : Nat) (new : List Skill)
    (hnew : ∀ s ∈ new, s.workspace_id = wid) :
    ((skills.filter (fun s => s.workspace_id != wid)) ++ new).filter
      (fun s => s.workspace_id == wid) = new := by
  rw [List.filter_append]
  have h1 : (skills.filter (fun s => s.workspace_id != wid)).filter
      (fun s => s.workspace_id == wid) = [] := by
    rw [List.filter_eq_nil_iff]
    intro a ha
    rw [List.mem_filter] at ha
    have h2 := ha.2
    simp only [bne_iff_ne, ne_eq] at h2
    simp [h2]
  have h3 : new.filter (fun s => s.workspace_id == wid) = new := by
    rw [List.filter_eq_self]
    intro a ha
    simp [hnew a ha]
  rw [h1, h3, List.nil_append]

theorem skillOfEntry_wid (wid : Nat) (e : Value) :
    (skillOfEntry wid e).workspace_id = wid := by
  cases e <;> rfl

theorem skills_map_roundtrip (wid : Nat) (sk : List Value)
    (hske : ∀ e ∈ sk, ∃ nm lv,
      e = Value.dict [("name", Value.str nm), ("level", Value.int lv)]) :
    (sk.map (skillOfEntry wid)).map
      (fun s => Value.dict [("name", Value.str s.name), ("level", Value.int s.level)]) = sk := by
  induction sk with
  | nil => rfl
  | cons e rest ih =>
    obtain ⟨nm, lv, he⟩ := hske e (List.mem_cons_self e rest)
    subst he
    simp only [List.map_cons, List.cons.injEq]
    exact ⟨rfl, ih (fun x hx => hske x (List.mem_cons_of_mem _ hx))⟩

theorem roundtrip_core (dbS : DB) (now : DateTime) (jsonOk : Bool)
    (jfile2 : Option (List (String × Value))) (u : String) (w' : Workspace)
    (sk : List Value)
    (hfindS : get_workspace_by_username dbS u = some w')
    (hskills : skillsOf dbS w'.id = sk.map (skillOfEntry w'.id))
    (hske : ∀ e ∈ sk, ∃ nm lv,
      e = Value.dict [("name", Value.str nm), ("level", Value.int lv)]) :
    ∃ kvs, load_data true dbS now jsonOk jfile2 (some u) = Value.dict kvs ∧
      lookup kvs "name" = some (Value.str w'.name) ∧
      lookup kvs "title" = some (Value.str (orStr w'.title "")) ∧
      lookup kvs "description" = some (Value.str (orStr w'.description "")) ∧
      lookup kvs "about" = some (Value.str (orStr w'.about "")) ∧
      lookup kvs "photo" = some (Value.str (orStr w'.photo "")) ∧
      lookup kvs "contact" = some (Value.dict (orDict w'.contact [])) ∧
      lookup kvs "social" = some (Value.dict (orDict w'.social [])) ∧
      lookup kvs "settings" =
        some (Value.dict (orDict w'.settings [("theme", Value.str "luxury-gold")])) ∧
      lookup kvs "skills" = some (Value.list sk) := by
  refine ⟨workspace_to_dict dbS now w', by simp [load_data, hfindS],
    wtd_lookup_name dbS now w', wtd_lookup_title dbS now w',
    wtd_lookup_description dbS now w', wtd_lookup_about dbS now w',
    wtd_lookup_photo dbS now w', wtd_lookup_contact dbS now w',
    wtd_lookup_social dbS now w', wtd_lookup_settings dbS now w', ?_⟩
  rw [wtd_lookup_skills dbS now w', hskills, skills_map_roundtrip _ _ hske]

theorem roundtrip_fields (dbS : DB) (now : DateTime) (jsonOk : Bool)
    (jfile2 : Option (List (String × Value))) (u : String) (w0 : Workspace)
    (n ti de ab ph : String) (ct so st : List (String × Value)) (sk : List Value)
    (hw_name : w0.name = n) (hw_title : w0.title = some ti)
    (hw_descr : w0.description = some de) (hw_about : w0.about = some ab)
    (hw_photo : w0.photo = some ph) (hw_contact : w0.contact = some ct)
    (hw_social : w0.social = some so) (hw_settings : w0.settings = some st)
    (hstne : st ≠ [])
    (hfindS : get_workspace_by_username dbS u = some w0)
    (hskills : skillsOf dbS w0.id = sk.map (skillOfEntry w0.id))
    (hske : ∀ e ∈ sk, ∃ nm lv,
      e = Value.dict [("name", Value.str nm), ("level", Value.int lv)]) :
    ∃ kvs, load_data true dbS now jsonOk jfile2 (some u) = Value.dict kvs ∧
      lookup kvs "name" = some (Value.str n) ∧
      lookup kvs "title" = some (Value.str ti) ∧
      lookup kvs "description" = some (Value.str de) ∧
      lookup kvs "about" = some (Value.str ab) ∧
      lookup kvs "photo" = some (Value.str ph) ∧
      lookup kvs "contact" = some (Value.dict ct) ∧
      lookup kvs "social" = some (Value.dict so) ∧
      lookup kvs "settings" = some (Value.dict st) ∧
      lookup kvs "skills" = some (Value.list sk) := by
  obtain ⟨kvs, hload, h1, h2, h3, h4, h5, h6, h7, h8, h9⟩ :=
    roundtrip_core dbS now jsonOk jfile2 u w0 sk hfindS hskills hske
  refine ⟨kvs, hload, ?_, ?_, ?_, ?_, ?_, ?_, ?_, ?_, h9⟩
  · rw [h1, hw_name]
  · rw [h2, hw_title, orStr_some_empty]
  · rw [h3, hw_descr, orStr_some_empty]
  · rw [h4, hw_about, orStr_some_empty]
  · rw [h5, hw_photo, orStr_some_empty]
  · rw [h6, hw_contact, orDict_some_nil]
  · rw [h7, hw_social, orDict_some_nil]
  · rw [h8, hw_settings, orDict_some_of_ne st _ hstne]

/-- C2 amended: saving a view whose name, title, description, about,
photo, contact, social, settings and skills keys are all present with
string, object and list values respectively, the settings object
non-empty and each skill entry exactly a name-and-level object, then
loading the same username, yields a view whose scalar fields equal the
saved ones and whose skill list equals the saved one (in particular as an
order-insensitive set); a saved empty settings object instead loads as
the default luxury-gold theme object. -/
theorem save_then_load_roundtrip (db : DB) (now : DateTime) (jsonOk : Bool)
    (jfile jfile2 : Option (List (String × Value)))
    (u : String) (ud : List (String × Value))
    (n ti de ab ph : String) (ct so st : List (String × Value)) (sk : List Value)
    (hn : lookup ud "name" = some (Value.str n))
    (hti : lookup ud "title" = some (Value.str ti))
    (hde : lookup ud "description" = some (Value.str de))
    (hab : lookup ud "about" = some (Value.str ab))
    (hph : lookup ud "photo" = some (Value.str ph))
    (hct : lookup ud "contact" = some (Value.dict ct))
    (hso : lookup ud "social" = some (Value.dict so))
    (hst : lookup ud "settings" = some (Value.dict st))
    (hstne : st ≠ [])
    (hsk : lookup ud "skills" = some (Value.list sk))
    (hske : ∀ e ∈ sk, ∃ nm lv,
      e = Value.dict [("name", Value.str nm), ("level", Value.int lv)]) :
    ∃ kvs,
      load_data true (save_data true db jfile ud (some u)).1 now jsonOk jfile2 (some u) =
        Value.dict kvs ∧
      lookup kvs "name" = some (Value.str n) ∧
      lookup kvs "title" = some (Value.str ti) ∧
      lookup kvs "description" = some (Value.str de) ∧
      lookup kvs "about" = some (Value.str ab) ∧
      lookup kvs "photo" = some (Value.str ph) ∧
      lookup kvs "contact" = some (Value.dict ct) ∧
      lookup kvs "social" = some (Value.dict so) ∧
      lookup kvs "settings" = some (Value.dict st) ∧
      lookup kvs "skills" = some (Value.list sk) := by
  have hhk : hasKey ud "skills" = true := by simp [hasKey, hsk]
  have hmem : ∀ wid : Nat, ∀ s ∈ sk.map (skillOfEntry wid), s.workspace_id = wid := by
    intro wid s hs
    obtain ⟨e, he, rfl⟩ := List.mem_map.mp hs
    exact skillOfEntry_wid _ _
  cases hfind : get_workspace_by_username db u with
  | some w =>
    have hslug : (w.slug == u) = true := by
      unfold get_workspace_by_username at hfind
      have h0 := List.find?_some hfind
      simpa using h0
    have hws : (save_data true db jfile ud (some u)).1.workspaces =
        updateWorkspace db.workspaces u (savedWorkspace w n ti de ab ph ct so st) := by
      simp [save_data, get_or_create_workspace, hfind, hhk, savedWorkspace,
        getStrD, getDictD, hn, hti, hde, hab, hph, hct, hso, hst]
    have hsk2 : (save_data true db jfile ud (some u)).1.skills =
        db.skills.filter (fun s => s.workspace_id != w.id) ++
          sk.map (skillOfEntry w.id) := by
      simp [save_data, get_or_create_workspace, hfind, hhk, hsk]
    have hfindS : get_workspace_by_username (save_data true db jfile ud (some u)).1 u =
        some (savedWorkspace w n ti de ab ph ct so st) := by
      unfold get_workspace_by_username
      rw [hws]
      refine find_updateWorkspace _ _ _ ?_ hslug
      unfold get_workspace_by_username at hfind
      rw [hfind]
      rfl
    have hskillsS : skillsOf (save_data true db jfile ud (some u)).1
        (savedWorkspace w n ti de ab ph ct so st).id =
        sk.map (skillOfEntry (savedWorkspace w n ti de ab ph ct so st).id) := by
      show skillsOf (save_data true db jfile ud (some u)).1 w.id =
        sk.map (skillOfEntry w.id)
      unfold skillsOf
      rw [hsk2]
      exact filter_replaced_skills _ _ _ (hmem w.id)
    exact roundtrip_fields _ now jsonOk jfile2 u _ n ti de ab ph ct so st sk
      rfl rfl rfl rfl rfl rfl rfl rfl hstne hfindS hskillsS hske
  | none =>
    have hws : (save_data true db jfile ud (some u)).1.workspaces =
        updateWorkspace (db.workspaces ++ [createdWorkspace db u (lookup ud "name")]) u
          (savedWorkspace (createdWorkspace db u (lookup ud "name"))
            n ti de ab ph ct so st) := by
      simp [save_data, get_or_create_workspace, hfind, hhk, savedWorkspace,
        createdWorkspace, getStrD, getDictD, hn, hti, hde, hab, hph, hct, hso, hst]
    have hsk2 : (save_data true db jfile ud (some u)).1.skills =
        db.skills.filter (fun s => s.workspace_id != freshWorkspaceId db) ++
          sk.map (skillOfEntry (freshWorkspaceId db)) := by
      simp [save_data, get_or_create_workspace, createdWorkspace, hfind, hhk, hsk]
    have hexB : ((db.workspaces ++ [createdWorkspace db u (lookup ud "name")]).find?
        (fun w => w.slug == u)).isSome = true :=
      isSome_find_append_singleton _ _ _ (by simp [createdWorkspace])
    have hfindS : get_workspace_by_username (save_data true db jfile ud (some u)).1 u =
        some (savedWorkspace (createdWorkspace db u (lookup ud "name"))
          n ti de ab ph ct so st) := by
      unfold get_workspace_by_username
      rw [hws]
      exact find_updateWorkspace _ _ _ hexB (by simp [savedWorkspace, createdWorkspace])
    have hskillsS : skillsOf (save_data true db jfile ud (some u)).1
        (savedWorkspace (createdWorkspace db u (lookup ud "name")) n ti de ab ph ct so st).id =
        sk.map (skillOfEntry
          (savedWorkspace (createdWorkspace db u (lookup ud "name")) n ti de ab ph ct so st).id) := by
      show skillsOf (save_data true db jfile ud (some u)).1 (freshWorkspaceId db) =
        sk.map (skillOfEntry (freshWorkspaceId db))
      unfold skillsOf
      rw [hsk2]
      exact filter_replaced_skills _ _ _ (hmem _)
    exact roundtrip_fields _ now jsonOk jfile2 u _ n ti de ab ph ct so st sk
      rfl rfl rfl rfl rfl rfl rfl rfl hstne hfindS hskillsS hske

/-- Witness for C2 at a concrete populated view saved into the empty
store: every saved field reads back and the skill list round-trips. -/
theorem save_then_load_roundtrip_witness :
    lookup udRoundtrip "name" = some (Value.str "Alice") ∧
    lookup udRoundtrip "settings" = some (Value.dict [("theme", Value.str "dark")]) ∧
    [("theme", Value.str "dark")] ≠ ([] : List (String × Value)) ∧
    lookup udRoundtrip "skills" = some (Value.list
      [Value.dict [("name", Value.str "python"), ("level", Value.int 70)]]) ∧
    ∃ kvs,
      load_data true (save_data true dbEmpty none udRoundtrip (some "alice")).1
        sampleNow true none (some "alice") = Value.dict kvs ∧
      lookup kvs "name" = some (Value.str "Alice") ∧
      lookup kvs "title" = some (Value.str "Engineer") ∧
      lookup kvs "description" = some (Value.str "Desc") ∧
      lookup kvs "about" = some (Value.str "About") ∧
      lookup kvs "photo" = some (Value.str "p.png") ∧
      lookup kvs "contact" = some (Value.dict [("email", Value.str "alice@example.com")]) ∧
      lookup kvs "social" = some (Value.dict []) ∧
      lookup kvs "settings" = some (Value.dict [("theme", Value.str "dark")]) ∧
      lookup kvs "skills" = some (Value.list
        [Value.dict [("name", Value.str "python"), ("level", Value.int 70)]]) :=
  ⟨rfl, rfl, by simp, rfl,
    save_then_load_roundtrip dbEmpty sampleNow true none none "alice" udRoundtrip
      "Alice" "Engineer" "Desc" "About" "p.png"
      [("email", Value.str "alice@example.com")] [] [("theme", Value.str "dark")]
      [Value.dict [("name", Value.str "python"), ("level", Value.int 70)]]
      rfl rfl rfl rfl rfl rfl rfl rfl (by simp) rfl
      (by
        intro e he
        rw [List.mem_singleton] at he
        exact ⟨"python", 70, he⟩)⟩

/-- C2 counterexample: a view saved with an empty settings object loads
back with the default luxury-gold theme object, not the saved empty
one — the scalar field settings does not equal the saved value. -/
theorem save_load_settings_counterexample :
    lookup udEmptySettings "settings" = some (Value.dict []) ∧
    outEmptySettings = Value.dict outEmptySettingsKvs ∧
    lookup outEmptySettingsKvs "settings" =
      some (Value.dict [("theme", Value.str "luxury-gold")]) ∧
    lookup outEmptySettingsKvs "settings" ≠ some (Value.dict []) := by
  refine ⟨rfl, rfl, rfl, ?_⟩
  rw [show lookup outEmptySettingsKvs "settings" =
    some (Value.dict [("theme", Value.str "luxury-gold")]) from rfl]
  simp

end CDX
